import Mathlib

/-!
Shallow embedding of the osuAkatsuki/assets-service image pipeline
(src/app/usecases/images.py), its HTTP handlers (src/app/api/v1/avatars.py)
and the object-store adapter boundary (src/app/adapters/s3.py).

Pure data flows (validation, resize arithmetic, key construction, error
mapping) are translated to Lean functions; the effects of each request
(moderation calls, object-store puts/gets/deletes) are recorded in explicit
trace structures so that properties about side effects become properties of
the trace.
-/

namespace AssetsService

/-- Error kinds of the service (app/errors.py, not under src/).
Modelled from the spec: the error taxonomy is
InvalidContent | InappropriateContent | ServiceUnavailable. -/
inductive ErrorCode
  | INVALID_CONTENT
  | INAPPROPRIATE_CONTENT
  | SERVICE_UNAVAILABLE
deriving DecidableEq, Repr

/-- Structured error returned by the pipeline (app/errors.py, shape visible
at every construction site in src/app/usecases/images.py). -/
structure Error where
  user_feedback : String
  code : ErrorCode
deriving DecidableEq, Repr

/-- ImageType enum from src/app/usecases/images.py. -/
inductive ImageType
  | USER_AVATAR
  | USER_PROFILE_BACKGROUND
  | CLAN_ICON
  | SCREENSHOT
deriving DecidableEq, Repr

/-- ImageType.get_s3_folder from src/app/usecases/images.py. -/
def ImageType.get_s3_folder : ImageType → String
  | .USER_AVATAR => "avatars"
  | .USER_PROFILE_BACKGROUND => "profile-backgrounds"
  | .CLAN_ICON => "clan-icons"
  | .SCREENSHOT => "screenshots"

/-- ImageType.get_max_single_dimension_size from src/app/usecases/images.py. -/
def ImageType.get_max_single_dimension_size : ImageType → Nat
  | .USER_AVATAR => 512
  | .USER_PROFILE_BACKGROUND => 1920
  | .CLAN_ICON => 256
  | .SCREENSHOT => 1920

/-- ALLOWED_MIME_TYPES from src/app/usecases/images.py. -/
def ALLOWED_MIME_TYPES : List String :=
  ["image/png", "image/jpeg", "image/gif", "image/webp"]

/-- VIDEO_MIME_TYPES from src/app/usecases/images.py. -/
def VIDEO_MIME_TYPES : List String :=
  ["image/gif"]

/-- DISALLOWED_MODERATION_LABELS from src/app/usecases/images.py. -/
def DISALLOWED_MODERATION_LABELS : List String :=
  ["Explicit Nudity", "Explicit Sexual Activity", "Sex Toys",
   "Obstructed Intimate Parts", "Self-Harm", "Blood & Gore",
   "Death and Emaciation", "Hate Symbols"]

/-- should_disallow_upload from src/app/usecases/images.py:
any returned label is a member of the disallowed set. -/
def should_disallow_upload (moderation_labels : List String) : Bool :=
  moderation_labels.any (fun l => DISALLOWED_MODERATION_LABELS.contains l)

/-! ### String helpers

Python string operations used by the source, modelled on the character
list underlying a Lean `String` so all of them evaluate by `decide`. -/

/-- Python list/str prefix test: first list is a prefix of the second. -/
def charsStartsWith : List Char → List Char → Bool
  | [], _ => true
  | _ :: _, [] => false
  | a :: as, b :: bs => a == b && charsStartsWith as bs

/-- Python `sub in s` substring containment on char lists. -/
def charsHasSub (sub : List Char) : List Char → Bool
  | [] => charsStartsWith sub []
  | c :: rest => charsStartsWith sub (c :: rest) || charsHasSub sub rest

/-- Python `sub in s` substring containment for strings. -/
def strHasSub (s sub : String) : Bool :=
  charsHasSub sub.data s.data

/-- Python `s.endswith(suf)`. -/
def strEndsWith (s suf : String) : Bool :=
  charsStartsWith suf.data.reverse s.data.reverse

/-- Python `s.lower()` for the ASCII format names involved. -/
def strLower (s : String) : String :=
  ⟨s.data.map Char.toLower⟩

/-! ### Image decoding (PIL boundary)

`_get_image_file_from_data` hands the raw bytes to PIL. The pipeline only
reads three things off the decoded image: `format`, `width`, `height`
(`get_format_mimetype` is a pure function of `format`, modelled below from
PIL's `Image.MIME` registry). The decode outcome is therefore represented
by this record, or by `none` when the parser raises. -/
structure DecodedImage where
  format : Option String
  width : Nat
  height : Nat
deriving DecidableEq, Repr

/-- PIL `ImageFile.get_format_mimetype`: the `Image.MIME` registry entry for
the detected format (external library; entries for the formats relevant to
the allowed set, plus representative disallowed ones). -/
def pilFormatMimetype : String → Option String
  | "PNG" => some "image/png"
  | "JPEG" => some "image/jpeg"
  | "GIF" => some "image/gif"
  | "WEBP" => some "image/webp"
  | "BMP" => some "image/bmp"
  | "TIFF" => some "image/tiff"
  | "ICO" => some "image/x-icon"
  | "MPO" => some "image/mpo"
  | _ => none

/-! ### Python float arithmetic

The resize step computes `aspect_ratio = max_single_dimension_size /
biggest_dimension` and `int(image.width * aspect_ratio)` with CPython
floats, i.e. IEEE 754 binary64 with round-to-nearest, ties-to-even. The
model below carries a nonnegative float exactly as a dyadic pair
(mantissa, exponent) with value mantissa * 2^exponent and implements the
correctly rounded division and multiplication over ℕ and ℤ, so every
evaluation is exact and kernel-computable. Subnormal and overflow ranges
are irrelevant at the magnitudes the pipeline produces (quotients of
positive pixel counts by caps of 256 to 1920). -/

/-- Round p / q (q > 0) to the nearest integer, ties to even. -/
def rnHalfEven (p q : Nat) : Nat :=
  let n0 := p / q
  let r := p % q
  if 2 * r < q then n0
  else if q < 2 * r then n0 + 1
  else if n0 % 2 = 0 then n0 else n0 + 1

/-- Fuel-driven floor of log2 (structural recursion so the kernel can
evaluate it on literals). -/
def log2Aux : Nat → Nat → Nat
  | 0, _ => 0
  | fuel + 1, n => if n < 2 then 0 else log2Aux fuel (n / 2) + 1

/-- Floor of log2 n for positive n (0 for n = 0). -/
def natLog2 (n : Nat) : Nat := log2Aux n n

/-- Floor of log2 (num / den) for positive num and den. -/
def floorLog2Frac (num den : Nat) : Int :=
  let l1 := natLog2 num
  let l2 := natLog2 den
  if den * 2 ^ l1 ≤ num * 2 ^ l2 then (l1 : Int) - (l2 : Int)
  else (l1 : Int) - (l2 : Int) - 1

/-- Round the nonnegative fraction num / den (den > 0) to the nearest IEEE
754 binary64 value, ties to even, returned as (mantissa, exponent): the
quotient is scaled into [2^52, 2^53), the 53-bit mantissa is picked by
round-half-even, and the value is mantissa * 2^exponent. -/
def roundB64Frac (num den : Nat) : Nat × Int :=
  if num = 0 then (0, 0)
  else
    let e := floorLog2Frac num den
    let s := 52 - e
    let p := if 0 ≤ s then num * 2 ^ s.toNat else num
    let q := if 0 ≤ s then den else den * 2 ^ (-s).toNat
    (rnHalfEven p q, e - 52)

/-- CPython `a / b` on nonnegative ints: correctly rounded binary64
division. -/
def pyFloatDiv (a b : Nat) : Nat × Int := roundB64Frac a b

/-- CPython `n * x` for an int n below 2^53 (exactly representable) and a
nonnegative float x: correctly rounded binary64 multiplication. -/
def pyFloatMul (n : Nat) (x : Nat × Int) : Nat × Int :=
  if 0 ≤ x.2 then roundB64Frac (n * x.1 * 2 ^ x.2.toNat) 1
  else roundB64Frac (n * x.1) (2 ^ (-x.2).toNat)

/-- CPython `int(x)` for a nonnegative float x: truncation toward zero. -/
def pyTrunc (x : Nat × Int) : Nat :=
  if 0 ≤ x.2 then x.1 * 2 ^ x.2.toNat else x.1 / 2 ^ (-x.2).toNat

/-- The resize arithmetic of upload_image (src/app/usecases/images.py lines
89-99): `aspect_ratio = max_single_dimension_size / biggest_dimension` in
binary64, then `int(width * aspect_ratio)` and
`int(height * aspect_ratio)`, each a float multiplication followed by
truncation. -/
def resized_dimensions (max_single_dimension_size width height : Nat) :
    Nat × Nat :=
  if max_single_dimension_size < width ∨ max_single_dimension_size < height then
    let biggest_dimension := max width height
    let scale := pyFloatDiv max_single_dimension_size biggest_dimension
    (pyTrunc (pyFloatMul width scale), pyTrunc (pyFloatMul height scale))
  else
    (width, height)

/-- The environment a single upload_image call runs in: the PIL decode
outcome for the posted bytes, whether `image.save` re-encodes without
raising, the `settings.SHOULD_FILTER_INAPPROPRIATE_CONTENT` flag, and what
`rekognition.detect_moderation_labels` would return (`none` = unavailable). -/
structure UploadEnv where
  decoded : Option DecodedImage
  encode_ok : Bool
  should_filter : Bool
  moderation_labels : Option (List String)
deriving DecidableEq, Repr

/-- Observable outcome of one upload_image call: the returned value
(`none` = Ok) plus a trace of its side effects: whether the moderation
adapter was invoked, the s3.upload call (directory, file_name,
content_type) if one was issued, and the dimensions the image had when it
reached the re-encode step. -/
structure UploadTrace where
  result : Option Error
  moderation_called : Bool
  s3_put : Option (String × String × String)
  final_dims : Option (Nat × Nat)
deriving DecidableEq, Repr

/-- upload_image from src/app/usecases/images.py, with the I/O boundary
made explicit through `UploadEnv` and the side effects recorded in the
returned `UploadTrace`. -/
def upload_image (image_type : ImageType) (no_ext_file_name : String)
    (env : UploadEnv) : UploadTrace :=
  match env.decoded with
  | none =>
      -- the parser raised: caught by the blanket `except Exception`
      { result := some ⟨"Invalid Image", .INVALID_CONTENT⟩,
        moderation_called := false, s3_put := none, final_dims := none }
  | some image =>
    match image.format with
    | none =>
        { result := some ⟨"Invalid Image Format", .INVALID_CONTENT⟩,
          moderation_called := false, s3_put := none, final_dims := none }
    | some image_format =>
      -- `image_mime_type not in ALLOWED_MIME_TYPES` also rejects the case
      -- where the MIME registry has no entry for the format (mimetype None)
      match pilFormatMimetype image_format with
      | none =>
          { result := some ⟨"Invalid Image Content Type", .INVALID_CONTENT⟩,
            moderation_called := false, s3_put := none, final_dims := none }
      | some image_mime_type =>
        if image_mime_type ∉ ALLOWED_MIME_TYPES then
          { result := some ⟨"Invalid Image Content Type", .INVALID_CONTENT⟩,
            moderation_called := false, s3_put := none, final_dims := none }
        else
          let dims := resized_dimensions
            image_type.get_max_single_dimension_size image.width image.height
          if env.encode_ok then
            if env.should_filter ∧ image_mime_type ∉ VIDEO_MIME_TYPES ∧
                image_type ≠ ImageType.SCREENSHOT then
              match env.moderation_labels with
              | none =>
                  { result := some ⟨"Service Unavailable",
                                    .SERVICE_UNAVAILABLE⟩,
                    moderation_called := true, s3_put := none,
                    final_dims := some dims }
              | some labels =>
                if should_disallow_upload labels then
                  { result := some ⟨"Inappropriate Content",
                                    .INAPPROPRIATE_CONTENT⟩,
                    moderation_called := true, s3_put := none,
                    final_dims := some dims }
                else
                  { result := none, moderation_called := true,
                    s3_put := some (image_type.get_s3_folder,
                      no_ext_file_name ++ "." ++ strLower image_format,
                      image_mime_type),
                    final_dims := some dims }
            else
              { result := none, moderation_called := false,
                s3_put := some (image_type.get_s3_folder,
                  no_ext_file_name ++ "." ++ strLower image_format,
                  image_mime_type),
                final_dims := some dims }
          else
            -- image.save raised: caught by the blanket `except Exception`
            { result := some ⟨"Invalid Image", .INVALID_CONTENT⟩,
              moderation_called := false, s3_put := none,
              final_dims := some dims }

/-- Outcome of one delete_image call: the returned value (`none` = Ok) and
the s3.delete calls it issued, each as (directory, file_name) in order. -/
structure DeleteTrace where
  result : Option Error
  s3_deletes : List (String × String)
deriving DecidableEq, Repr

/-- delete_image from src/app/usecases/images.py: issues one s3.delete per
candidate extension (the s3 adapter swallows every provider error, so the
loop body cannot raise and no result is inspected), then returns None. -/
def delete_image (image_type : ImageType) (no_ext_file_name : String) :
    DeleteTrace :=
  { result := none,
    s3_deletes := ["png", "jpg", "jpeg", "gif", "webp"].map
      (fun ext => (image_type.get_s3_folder, no_ext_file_name ++ "." ++ ext)) }

/-! ### HTTP handlers (src/app/api/v1/avatars.py) -/

/-- The status-code dict inside _get_status_code_for_error. -/
def STATUS_CODE_MAP : ErrorCode → Option Nat
  | .INVALID_CONTENT => some 400
  | .INAPPROPRIATE_CONTENT => some 400
  | .SERVICE_UNAVAILABLE => some 503

/-- _get_status_code_for_error from src/app/api/v1/avatars.py: dict lookup,
with the KeyError handler returning 500 for unmapped codes. -/
def get_status_code_for_error (error_code : ErrorCode) : Nat :=
  (STATUS_CODE_MAP error_code).getD 500

/-- upload_avatar handler (POST /api/v1/users/\x7buser_id\x7d/avatar):
returns the status code of the produced Response. -/
def upload_avatar_status (user_id : Nat) (env : UploadEnv) : Nat :=
  match (upload_image ImageType.USER_AVATAR (toString user_id) env).result with
  | some e => get_status_code_for_error e.code
  | none => 204

/-- delete_avatar handler (DELETE /api/v1/users/\x7buser_id\x7d/avatar):
returns the status code of the produced Response. -/
def delete_avatar_status (user_id : Nat) : Nat :=
  match (delete_image ImageType.USER_AVATAR (toString user_id)).result with
  | some e => get_status_code_for_error e.code
  | none => 204

/-- s3.download result shape (src/app/adapters/s3.py DownloadResponse);
bytes modelled as a list of byte values. -/
structure DownloadResponse where
  body : List Nat
  content_type : String
deriving DecidableEq, Repr

/-- Observable outcome of one get_avatar call: response status, the served
body and media type when any, and the s3.download calls issued, each as
(file_name, directory) in order. -/
structure GetAvatarTrace where
  status_code : Nat
  body : Option (List Nat × String)
  storage_calls : List (String × String)
deriving DecidableEq, Repr

/-- The key-resolution head of get_avatar (src/app/api/v1/avatars.py lines
57-64): the traversal rejection and the conditional `.png` append. `none`
means the 404 rejection; `some key` is the file name then fetched. -/
def avatar_resolved_key (file_path : String) : Option String :=
  if strHasSub file_path ".." || strHasSub file_path "/" then
    none
  else if !strEndsWith file_path ".png" then
    some (file_path ++ ".png")
  else
    some file_path

/-- get_avatar handler (GET /api/v1/avatars/\x7bfile_path\x7d), with the
object store abstracted as a function from (file_name, directory) to the
download result and the configured DEFAULT_AVATAR_FILENAME passed in. -/
def get_avatar (storage : String → String → Option DownloadResponse)
    (DEFAULT_AVATAR_FILENAME : String) (file_path : String) : GetAvatarTrace :=
  match avatar_resolved_key file_path with
  | none => { status_code := 404, body := none, storage_calls := [] }
  | some key =>
    match storage key "avatars" with
    | some r =>
        { status_code := 200, body := some (r.body, r.content_type),
          storage_calls := [(key, "avatars")] }
    | none =>
      match storage DEFAULT_AVATAR_FILENAME "avatars" with
      | some r =>
          { status_code := 200, body := some (r.body, r.content_type),
            storage_calls :=
              [(key, "avatars"), (DEFAULT_AVATAR_FILENAME, "avatars")] }
      | none =>
          { status_code := 404, body := none,
            storage_calls :=
              [(key, "avatars"), (DEFAULT_AVATAR_FILENAME, "avatars")] }

/-- Modelled from the spec: "appends `.png` if no extension present" — the
claim's notion of an extension being present in the requested path: a dot
separating a nonempty suffix. (The source has no such notion; this
definition exists only to compare the claim's wording with the code.) -/
def spec_has_extension (file_path : String) : Bool :=
  strHasSub file_path "." && !strEndsWith file_path "."

/-! ## Theorems -/

/-- Claim C7: delete_image never fails outward: for every imageType and
baseName it returns Ok (None), issuing exactly one s3.delete per candidate
extension png, jpg, jpeg, gif, webp, in that order, ignoring the storage
results — so the outcome is the same whether or not any object exists
(idempotence). -/
theorem delete_image_always_ok (image_type : ImageType)
    (no_ext_file_name : String) :
    (delete_image image_type no_ext_file_name).result = none ∧
    (delete_image image_type no_ext_file_name).s3_deletes =
      [(image_type.get_s3_folder, no_ext_file_name ++ "." ++ "png"),
       (image_type.get_s3_folder, no_ext_file_name ++ "." ++ "jpg"),
       (image_type.get_s3_folder, no_ext_file_name ++ "." ++ "jpeg"),
       (image_type.get_s3_folder, no_ext_file_name ++ "." ++ "gif"),
       (image_type.get_s3_folder, no_ext_file_name ++ "." ++ "webp")] :=
  ⟨rfl, rfl⟩

/-- Claim C8: the upload and delete avatar handlers return 204 on pipeline
success and otherwise map the returned error kind through
InvalidContent and InappropriateContent to 400 and ServiceUnavailable
to 503 (the spec's error taxonomy has no further kind, so the handler's
unmapped-kind 500 default is unreachable). -/
theorem handler_status_mapping (user_id : Nat) (env : UploadEnv) :
    upload_avatar_status user_id env =
      (match (upload_image ImageType.USER_AVATAR (toString user_id)
          env).result with
       | none => 204
       | some e =>
         match e.code with
         | .INVALID_CONTENT => 400
         | .INAPPROPRIATE_CONTENT => 400
         | .SERVICE_UNAVAILABLE => 503) ∧
    delete_avatar_status user_id = 204 := by
  refine ⟨?_, rfl⟩
  unfold upload_avatar_status
  rcases (upload_image ImageType.USER_AVATAR (toString user_id) env).result
    with _ | e
  · rfl
  · rcases e with ⟨msg, c⟩
    rcases c <;> rfl

/-- Claim C5: every avatar fetch whose path contains a `..` or `/`
substring yields status 404 and issues no storage call. -/
theorem get_avatar_traversal_rejected
    (storage : String → String → Option DownloadResponse)
    (DEFAULT_AVATAR_FILENAME file_path : String)
    (h : strHasSub file_path ".." = true ∨ strHasSub file_path "/" = true) :
    (get_avatar storage DEFAULT_AVATAR_FILENAME file_path).status_code
        = 404 ∧
    (get_avatar storage DEFAULT_AVATAR_FILENAME file_path).storage_calls
        = [] := by
  have hkey : avatar_resolved_key file_path = none := by
    unfold avatar_resolved_key
    rcases h with h | h <;> simp [h]
  unfold get_avatar
  rw [hkey]
  exact ⟨rfl, rfl⟩

/-- Witness for C5 at the concrete path "../secret". -/
theorem get_avatar_traversal_rejected_witness :
    (get_avatar (fun _ _ => none) "default.png" "../secret").status_code
        = 404 ∧
    (get_avatar (fun _ _ => none) "default.png" "../secret").storage_calls
        = [] :=
  get_avatar_traversal_rejected (fun _ _ => none) "default.png" "../secret"
    (Or.inl (by decide))

/-- Counterexample to claim C4: the path "1.jpg" passes the traversal
check and has an extension present, yet the handler still appends ".png",
resolving the fetched key to "1.jpg.png". -/
theorem avatar_append_counterexample :
    strHasSub "1.jpg" ".." = false ∧ strHasSub "1.jpg" "/" = false ∧
    spec_has_extension "1.jpg" = true ∧
    avatar_resolved_key "1.jpg" = some "1.jpg.png" := by decide

/-- Claim C4 (amended): for every requested avatar path that passes the
traversal check, the handler appends ".png" exactly when the path does not
already end with ".png", and the first storage fetch is for that resolved
key in the "avatars" directory. -/
theorem avatar_fetches_resolved_key
    (storage : String → String → Option DownloadResponse)
    (DEFAULT_AVATAR_FILENAME file_path : String)
    (h1 : strHasSub file_path ".." = false)
    (h2 : strHasSub file_path "/" = false) :
    avatar_resolved_key file_path =
      some (if strEndsWith file_path ".png" then file_path
            else file_path ++ ".png") ∧
    (get_avatar storage DEFAULT_AVATAR_FILENAME file_path).storage_calls.head?
      = some ((if strEndsWith file_path ".png" then file_path
               else file_path ++ ".png"), "avatars") := by
  have hkey : avatar_resolved_key file_path =
      some (if strEndsWith file_path ".png" then file_path
            else file_path ++ ".png") := by
    unfold avatar_resolved_key
    rw [h1, h2]
    rcases he : strEndsWith file_path ".png" <;> simp [he]
  refine ⟨hkey, ?_⟩
  unfold get_avatar
  rw [hkey]
  cases hs : storage (if strEndsWith file_path ".png" then file_path
      else file_path ++ ".png") "avatars" with
  | some r => simp [hs]
  | none =>
    cases hs2 : storage DEFAULT_AVATAR_FILENAME "avatars" with
    | some r2 => simp [hs, hs2]
    | none => simp [hs, hs2]

/-- Helper: once decode, format detection and the MIME allow-list check
succeed, the trace records the resized dimensions, whatever happens later
in the pipeline. -/
theorem upload_final_dims_eq (image_type : ImageType)
    (no_ext_file_name : String) (env : UploadEnv) (image : DecodedImage)
    (fmt m : String)
    (hdec : env.decoded = some image) (hfmt : image.format = some fmt)
    (hmime : pilFormatMimetype fmt = some m)
    (hall : m ∈ ALLOWED_MIME_TYPES) :
    (upload_image image_type no_ext_file_name env).final_dims =
      some (resized_dimensions image_type.get_max_single_dimension_size
        image.width image.height) := by
  unfold upload_image
  simp only [hdec, hfmt, hmime]
  rw [if_neg (not_not_intro hall)]
  cases henc : env.encode_ok
  · simp [henc]
  · simp only [henc, if_true]
    split
    · cases hlab : env.moderation_labels with
      | none => rfl
      | some labels => by_cases hdis : should_disallow_upload labels <;>
          simp [hdis]
    · rfl

/-- Helper: every branch of upload_image either issues no s3.upload or
returns Ok. -/
theorem upload_put_none_or_result_ok (image_type : ImageType)
    (no_ext_file_name : String) (env : UploadEnv) :
    (upload_image image_type no_ext_file_name env).s3_put = none ∨
    (upload_image image_type no_ext_file_name env).result = none := by
  unfold upload_image
  cases hdec : env.decoded with
  | none => left; rfl
  | some image =>
    cases hfmt : image.format with
    | none => left; simp [hfmt]
    | some fmt =>
      cases hm : pilFormatMimetype fmt with
      | none => left; simp [hfmt, hm]
      | some m =>
        simp only [hfmt, hm]
        by_cases hall : m ∈ ALLOWED_MIME_TYPES
        · rw [if_neg (not_not_intro hall)]
          cases henc : env.encode_ok
          · left; simp [henc]
          · simp only [henc, if_true]
            split
            · cases hlab : env.moderation_labels with
              | none => left; rfl
              | some labels =>
                by_cases hdis : should_disallow_upload labels
                · left; simp [hdis]
                · right; simp [hdis]
            · right; rfl
        · rw [if_pos hall]
          left; rfl

/-- Claim C3: whenever the decoded image's detected MIME type falls outside
the allowed set, upload_image returns the InvalidContent error, whatever the
moderation configuration (env.should_filter is unconstrained). -/
theorem upload_rejects_disallowed_mime (image_type : ImageType)
    (no_ext_file_name : String) (env : UploadEnv) (image : DecodedImage)
    (fmt m : String)
    (hdec : env.decoded = some image) (hfmt : image.format = some fmt)
    (hmime : pilFormatMimetype fmt = some m)
    (hnall : m ∉ ALLOWED_MIME_TYPES) :
    (upload_image image_type no_ext_file_name env).result =
      some ⟨"Invalid Image Content Type", ErrorCode.INVALID_CONTENT⟩ := by
  unfold upload_image
  simp only [hdec, hfmt, hmime]
  rw [if_pos hnall]

/-- Witness for C3: a BMP decode (MIME image/bmp) is rejected as
InvalidContent even with moderation enabled. -/
theorem upload_rejects_disallowed_mime_witness :
    (upload_image ImageType.USER_AVATAR "1"
        ⟨some ⟨some "BMP", 10, 10⟩, true, true, some []⟩).result =
      some ⟨"Invalid Image Content Type", ErrorCode.INVALID_CONTENT⟩ :=
  upload_rejects_disallowed_mime ImageType.USER_AVATAR "1"
    ⟨some ⟨some "BMP", 10, 10⟩, true, true, some []⟩ ⟨some "BMP", 10, 10⟩
    "BMP" "image/bmp" rfl rfl rfl (by decide)

/-- Claim C6: when both decoded dimensions are within the per-type cap, the
resize step is the identity: the image reaches the re-encode/persist step
at its original dimensions. -/
theorem upload_resize_noop (image_type : ImageType)
    (no_ext_file_name : String) (env : UploadEnv) (image : DecodedImage)
    (fmt m : String)
    (hdec : env.decoded = some image) (hfmt : image.format = some fmt)
    (hmime : pilFormatMimetype fmt = some m)
    (hall : m ∈ ALLOWED_MIME_TYPES)
    (hw : image.width ≤ image_type.get_max_single_dimension_size)
    (hh : image.height ≤ image_type.get_max_single_dimension_size) :
    (upload_image image_type no_ext_file_name env).final_dims =
      some (image.width, image.height) := by
  rw [upload_final_dims_eq image_type no_ext_file_name env image fmt m
    hdec hfmt hmime hall]
  unfold resized_dimensions
  rw [if_neg]
  omega

/-- Witness for C6: a 300x200 PNG avatar (cap 512) keeps its dimensions. -/
theorem upload_resize_noop_witness :
    (upload_image ImageType.USER_AVATAR "1"
        ⟨some ⟨some "PNG", 300, 200⟩, true, true, some []⟩).final_dims =
      some (300, 200) :=
  upload_resize_noop ImageType.USER_AVATAR "1"
    ⟨some ⟨some "PNG", 300, 200⟩, true, true, some []⟩ ⟨some "PNG", 300, 200⟩
    "PNG" "image/png" rfl rfl rfl (by decide) (by decide) (by decide)

/-- Claim C9: whenever upload_image returns an error, no object-store put
was issued. -/
theorem upload_error_no_put (image_type : ImageType)
    (no_ext_file_name : String) (env : UploadEnv) (e : Error)
    (h : (upload_image image_type no_ext_file_name env).result = some e) :
    (upload_image image_type no_ext_file_name env).s3_put = none := by
  rcases upload_put_none_or_result_ok image_type no_ext_file_name env with
    hp | ho
  · exact hp
  · rw [ho] at h
    exact Option.noConfusion h

/-- Witness for C9: an undecodable body yields an error and no put. -/
theorem upload_error_no_put_witness :
    (upload_image ImageType.USER_AVATAR "1"
        ⟨none, true, true, some []⟩).s3_put = none :=
  upload_error_no_put ImageType.USER_AVATAR "1" ⟨none, true, true, some []⟩
    ⟨"Invalid Image", ErrorCode.INVALID_CONTENT⟩ rfl

/-- Claim C2: the moderation adapter is invoked exactly when moderation is
enabled, the image type is not Screenshot, re-encode succeeded, and the
image decoded to an allowed MIME type other than image/gif (the sole
video-like exemption). -/
theorem upload_moderation_iff (image_type : ImageType)
    (no_ext_file_name : String) (env : UploadEnv) :
    (upload_image image_type no_ext_file_name env).moderation_called = true ↔
      (env.should_filter = true ∧ image_type ≠ ImageType.SCREENSHOT ∧
       env.encode_ok = true ∧
       ∃ image fmt m, env.decoded = some image ∧ image.format = some fmt ∧
         pilFormatMimetype fmt = some m ∧ m ∈ ALLOWED_MIME_TYPES ∧
         m ≠ "image/gif") := by
  unfold upload_image
  cases hdec : env.decoded with
  | none => simp
  | some image =>
    cases hfmt : image.format with
    | none => simp [hfmt]
    | some fmt =>
      cases hm : pilFormatMimetype fmt with
      | none => simp [hfmt, hm]
      | some m =>
        simp only [hfmt, hm]
        by_cases hall : m ∈ ALLOWED_MIME_TYPES
        · rw [if_neg (not_not_intro hall)]
          cases henc : env.encode_ok
          · simp [henc, hfmt, hm]
          · simp only [henc, if_true]
            by_cases hcond : env.should_filter = true ∧
                m ∉ VIDEO_MIME_TYPES ∧ image_type ≠ ImageType.SCREENSHOT
            · obtain ⟨hf, hv, hs⟩ := hcond
              have hv' : m ≠ "image/gif" := by
                simpa [VIDEO_MIME_TYPES] using hv
              rw [if_pos ⟨hf, hv, hs⟩]
              cases hlab : env.moderation_labels with
              | none => simp [hf, hs, hfmt, hm, hall, hv']
              | some labels =>
                by_cases hdis : should_disallow_upload labels <;>
                  simp [hdis, hf, hs, hfmt, hm, hall, hv']
            · rw [if_neg hcond]
              push_neg at hcond
              constructor
              · intro hfalse
                exact Bool.noConfusion hfalse
              · rintro ⟨hf, hs, _, image2, fmt2, m2, heq, hfmt2, hm2, hall2,
                  hgif⟩
                injection heq with h3
                subst h3
                rw [hfmt] at hfmt2
                injection hfmt2 with h4
                subst h4
                rw [hm] at hm2
                injection hm2 with h5
                subst h5
                have hvid : m ∉ VIDEO_MIME_TYPES := by
                  simpa [VIDEO_MIME_TYPES] using hgif
                exact absurd (hcond hf hvid) hs
        · rw [if_pos hall]
          constructor
          · intro hfalse
            exact Bool.noConfusion hfalse
          · rintro ⟨_, _, _, image2, fmt2, m2, heq, hfmt2, hm2, hall2, _⟩
            injection heq with h3
            subst h3
            rw [hfmt] at hfmt2
            injection hfmt2 with h4
            subst h4
            rw [hm] at hm2
            injection hm2 with h5
            subst h5
            exact absurd hall2 hall

/-- Helper: the only modelled PIL formats whose MIME type is in the allowed
set are PNG, JPEG, GIF and WEBP. -/
theorem pil_allowed_formats (fmt m : String)
    (hm : pilFormatMimetype fmt = some m) (hall : m ∈ ALLOWED_MIME_TYPES) :
    fmt = "PNG" ∨ fmt = "JPEG" ∨ fmt = "GIF" ∨ fmt = "WEBP" := by
  unfold pilFormatMimetype at hm
  split at hm <;>
    first
      | exact Option.noConfusion hm
      | decide
      | (injection hm with hmeq; subst hmeq; exact absurd hall (by decide))

/-- Helper: s3.upload is only reached with an entry built from a decoded
image that passed format detection and the MIME allow-list; the key is the
base name joined with the lowercased detected format, under the imageType
folder, stored with the detected MIME type. -/
theorem upload_put_shape (image_type : ImageType) (no_ext_file_name : String)
    (env : UploadEnv) (entry : String × String × String)
    (h : (upload_image image_type no_ext_file_name env).s3_put = some entry) :
    ∃ image fmt m, env.decoded = some image ∧ image.format = some fmt ∧
      pilFormatMimetype fmt = some m ∧ m ∈ ALLOWED_MIME_TYPES ∧
      entry = (image_type.get_s3_folder,
               no_ext_file_name ++ "." ++ strLower fmt, m) := by
  unfold upload_image at h
  cases hdec : env.decoded with
  | none => simp [hdec] at h
  | some image =>
    cases hfmt : image.format with
    | none => simp [hdec, hfmt] at h
    | some fmt =>
      cases hmime : pilFormatMimetype fmt with
      | none => simp [hdec, hfmt, hmime] at h
      | some m =>
        simp only [hdec, hfmt, hmime] at h
        by_cases hall : m ∈ ALLOWED_MIME_TYPES
        · rw [if_neg (not_not_intro hall)] at h
          cases henc : env.encode_ok
          · simp [henc] at h
          · simp only [henc, if_true] at h
            split at h
            · cases hlab : env.moderation_labels with
              | none => simp [hlab] at h
              | some labels =>
                simp only [hlab] at h
                split at h
                · exact Option.noConfusion h
                · injection h with h2
                  exact ⟨image, fmt, m, rfl, hfmt, hmime, hall, h2.symm⟩
            · injection h with h2
              exact ⟨image, fmt, m, rfl, hfmt, hmime, hall, h2.symm⟩
        · rw [if_pos hall] at h
          exact Option.noConfusion h

/-- Claim C10: every key upload_image can put is one of the keys
delete_image sweeps, so every stored image is reachable by delete. -/
theorem upload_key_deletable (image_type : ImageType)
    (no_ext_file_name : String) (env : UploadEnv)
    (entry : String × String × String)
    (h : (upload_image image_type no_ext_file_name env).s3_put = some entry) :
    (entry.1, entry.2.1) ∈
      (delete_image image_type no_ext_file_name).s3_deletes := by
  obtain ⟨image, fmt, m, _, _, hmime, hall, hentry⟩ :=
    upload_put_shape image_type no_ext_file_name env entry h
  subst hentry
  rcases pil_allowed_formats fmt m hmime hall with hf | hf | hf | hf <;>
    subst hf <;> simp [delete_image, show strLower "PNG" = "png" by decide,
      show strLower "JPEG" = "jpeg" by decide,
      show strLower "GIF" = "gif" by decide,
      show strLower "WEBP" = "webp" by decide]

/-- Witness for C10: a PNG avatar upload puts avatars/1.png, which the
delete sweep covers. -/
theorem upload_key_deletable_witness :
    (("avatars", "1.png", "image/png").1,
     ("avatars", "1.png", "image/png").2.1) ∈
      (delete_image ImageType.USER_AVATAR "1").s3_deletes :=
  upload_key_deletable ImageType.USER_AVATAR "1"
    ⟨some ⟨some "PNG", 100, 100⟩, true, false, none⟩
    ("avatars", "1.png", "image/png") (by decide)

/-- Claim C1 (refuted by the program's float arithmetic): the source
computes the resize through binary64 floats, and the rounded scale factor
can make the truncated product fall one short of the cap: a 561x561 avatar
(cap 512) is resized to 511x511 and a 322x322 clan icon (cap 256) to
255x255, while the claim's exact formula floor(width * (cap / biggest))
gives 512 resp. 256, i.e. max(out_w, out_h) = cap would demand 512x512 and
256x256 scaling targets. -/
theorem upload_resize_float_shortfall :
    (upload_image ImageType.USER_AVATAR "561"
        ⟨some ⟨some "PNG", 561, 561⟩, true, false, none⟩).final_dims =
      some (511, 511) ∧
    (upload_image ImageType.CLAN_ICON "322"
        ⟨some ⟨some "PNG", 322, 322⟩, true, false, none⟩).final_dims =
      some (255, 255) ∧
    561 * ImageType.USER_AVATAR.get_max_single_dimension_size / max 561 561
      = 512 ∧
    322 * ImageType.CLAN_ICON.get_max_single_dimension_size / max 322 322
      = 256 := by decide

/-- Witness for the amended C4 at the extensionless path "1". -/
theorem avatar_fetches_resolved_key_witness :
    avatar_resolved_key "1" =
      some (if strEndsWith "1" ".png" then "1" else "1" ++ ".png") ∧
    (get_avatar (fun _ _ => none) "default.png" "1").storage_calls.head?
      = some ((if strEndsWith "1" ".png" then "1" else "1" ++ ".png"),
              "avatars") :=
  avatar_fetches_resolved_key (fun _ _ => none) "default.png" "1"
    (by decide) (by decide)

end AssetsService
